import Mathlib

/-!
# Verification of the join-barrier coordination protocol
(`function-app/code/functions/clusterize/clusterize.go`)

Shallow embedding of the clusterize function app of the terraform-azure-weka
repository.  Pure string generation is translated directly; every call the Go
code makes into the Azure SDK / key vault / `weka-deployment/common` helpers is
represented by an explicit environment record (`Env`) holding the outcome each
external call would return during the invocation, and the shared blob-store
state is threaded explicitly.

The helpers of the `weka-deployment/common` package (`AddInstanceToState`,
`GetPublicIp`, `GetKeyVaultValue`, ...) belong to this repository but their
source is not under `src/`; where their behaviour matters (the conditional
append) they are modelled from the spec, and marked as such.
-/

namespace WekaClusterize

/-- `protocol.ClusterState`: the durable record in the state blob.
`instances` is the ordered sequence of registered node identifiers
(registration order); `expectedSize` is the cluster size fixed at creation
(spec §3, ClusterJoinState). -/
structure ClusterState where
  instances : List String
  expectedSize : Nat
  deriving Repr, DecidableEq

/-- `clusterize.DataProtectionParams` of go-cloud-lib (carried through). -/
structure DataProtectionParams where
  StripeWidth : Nat := 0
  ProtectionLevel : Nat := 0
  Hotspare : Nat := 0
  deriving Repr, DecidableEq

/-- The fields of go-cloud-lib `clusterize.ClusterParams` that the clusterize
function reads or writes. -/
structure ClusterParams where
  HostsNum : Nat := 0
  ClusterName : String := ""
  NvmesNum : Nat := 0
  SetObs : Bool := false
  SmbwEnabled : Bool := false
  AddFrontend : Bool := false
  ProxyUrl : String := ""
  WekaHomeUrl : String := ""
  DataProtection : DataProtectionParams := {}
  VMNames : List String := []
  IPs : List String := []
  ObsScript : String := ""
  DebugOverrideCmds : String := ""
  WekaPassword : String := ""
  WekaUsername : String := ""
  InstallDpdk : Bool := false
  FindDrivesScript : String := ""
  deriving Repr, DecidableEq

/-- `AzureObsParams` (clusterize.go lines 23-28). -/
structure AzureObsParams where
  Name : String := ""
  ContainerName : String := ""
  AccessKey : String := ""
  TieringSsdPercent : String := ""
  deriving Repr, DecidableEq

/-- `ClusterizationParams` (clusterize.go lines 55-71); the plain-string
plumbing fields (subscription id, resource group, ...) are only handed to the
external calls absorbed into `Env`, so they are not repeated here. -/
structure ClusterizationParams where
  VmName : String := ""
  InstallDpdk : Bool := false
  Cluster : ClusterParams := {}
  Obs : AzureObsParams := {}
  deriving Repr, DecidableEq

/-- Outcome of the spec-modelled conditional append: either the store rejects
with `ShutdownRequired` (the barrier is already full) or fails transiently. -/
inductive StoreErr where
  | shutdownRequired
  | transient (msg : String)
  deriving Repr, DecidableEq

/-- The outcomes of every external call a single invocation performs, one
field per collaborator of spec §6.  `storeFailure` models the state store
being unreachable for this invocation. -/
structure Env where
  publicIp : Except String String := .ok "10.0.0.1"
  storeFailure : Option String := none
  functionAppKey : Except String String := .ok "fk"
  storageAccountKey : Except String String := .ok "sak"
  containerResult : Except String Unit := .ok ()
  roleAssignment : Except String Unit := .ok ()
  wekaPassword : Except String String := .ok "pw"
  vmsPrivateIps : Except String (List (String × String)) := .ok []
  deriving Repr

/-- `GetObsScript` (clusterize.go lines 30-45): `fmt.Sprintf` of the dedented
template with TieringSsdPercent, Name, ContainerName, AccessKey in order. -/
def GetObsScript (o : AzureObsParams) : String :=
  "\nTIERING_SSD_PERCENT=" ++ o.TieringSsdPercent ++
  "\nOBS_NAME=" ++ o.Name ++
  "\nOBS_CONTAINER_NAME=" ++ o.ContainerName ++
  "\nOBS_BLOB_KEY=" ++ o.AccessKey ++
  "\n\nweka fs tier s3 add azure-obs --site local --obs-name default-local --obs-type AZURE --hostname $OBS_NAME.blob.core.windows.net --port 443 --bucket $OBS_CONTAINER_NAME --access-key-id $OBS_NAME --secret-key $OBS_BLOB_KEY --protocol https --auth-method AWSSignature4" ++
  "\nweka fs tier s3 attach default azure-obs" ++
  "\ntiering_percent=$(echo \"$full_capacity * 100 / $TIERING_SSD_PERCENT\" | bc)" ++
  "\nweka fs update default --total-capacity \"$tiering_percent\"B\n"

/-- `GetWekaDebugOverrideCmds` (clusterize.go lines 47-53), dedented. -/
def GetWekaDebugOverrideCmds : String :=
  "\nweka debug override add --key allow_uncomputed_backend_checksum" ++
  "\nweka debug override add --key allow_azure_auto_detection\n"

/-- `GetErrorScript` (clusterize.go lines 77-85): a bash script that displays
the error text in a heredoc and exits 1. -/
def GetErrorScript (msg : String) : String :=
  "\n#!/bin/bash\n<<\x27###ERROR\x27\n" ++ msg ++ "\n###ERROR\nexit 1\n\t"

/-- `GetShutdownScript` (clusterize.go lines 87-93): the dedented literal. -/
def GetShutdownScript : String :=
  "\n#!/bin/bash\nshutdown now\n"

/-- Modelled from the spec: go-cloud-lib `cloudCommon.GetScriptWithReport`
(spec §4.4, `Wait` variant) is not in this repository; per the spec it renders
an instruction that reports progress to the status endpoint and exits without
error. -/
def GetScriptWithReport (msg : String) : String :=
  "#!/bin/bash\nreport \"" ++ msg ++ "\"\nexit 0\n"

/-- Modelled from the spec: go-cloud-lib `cloudCommon.GetErrorScript` with a
report function (spec §4.4, `Error` variant): surfaces the error text, reports
it, and exits with failure. -/
def GetErrorScriptWithReport (msg : String) : String :=
  "#!/bin/bash\nreport \"error: " ++ msg ++ "\"\necho \"" ++ msg ++ "\"\nexit 1\n"

/-- Modelled from the spec: go-cloud-lib
`clusterize.ClusterizeScriptGenerator.GetClusterizeScript` (spec §4.4,
`FormCluster` variant): an instruction embedding the node list and
configuration that initializes the cluster software. -/
def GetClusterizeScript (ps : ClusterParams) : String :=
  "#!/bin/bash\nVMS=\"" ++ String.intercalate " " ps.VMNames ++
  "\"\nIPS=\"" ++ String.intercalate " " ps.IPs ++
  "\"\nWEKA_USERNAME=\"" ++ ps.WekaUsername ++
  "\"\nWEKA_PASSWORD=\"" ++ ps.WekaPassword ++
  "\"\n" ++ ps.DebugOverrideCmds ++ ps.ObsScript ++
  "weka cluster create $VMS --host-ips $IPS\n"

/-- The instruction script `Clusterize` hands back, tagged by which generator
produced it (the constructors are in bijection with the distinct string
generators the Go code calls; `render` maps each to its text). -/
inductive Script where
  | errorScript (msg : String)
  | shutdownScript
  | reportScript (msg : String)
  | errorReportScript (msg : String)
  | clusterizeScript (params : ClusterParams)
  deriving Repr, DecidableEq

/-- Text of each script, via the corresponding generator. -/
def render : Script → String
  | .errorScript msg => GetErrorScript msg
  | .shutdownScript => GetShutdownScript
  | .reportScript msg => GetScriptWithReport msg
  | .errorReportScript msg => GetErrorScriptWithReport msg
  | .clusterizeScript ps => GetClusterizeScript ps

/-- Modelled from the spec: `common.AddInstanceToState` (weka-deployment
common package, not under `src/`).  Spec §4.1/§4.2: conditional append under
optimistic concurrency; a duplicate identifier is a no-op returning the
existing state; once `len(instances)` has reached `expectedSize` a new
identifier is rejected with the `ShutdownRequired` error (clusterize.go line
195 type-switches on it); an unreachable store surfaces a transient error. -/
def AddInstanceToState (storeFailure : Option String) (state : ClusterState)
    (vmName : String) : Except StoreErr ClusterState :=
  match storeFailure with
  | some e => .error (.transient e)
  | none =>
    if vmName ∈ state.instances then .ok state
    else if state.expectedSize ≤ state.instances.length then
      .error .shutdownRequired
    else .ok { state with instances := state.instances ++ [vmName] }

/-- Helper for `splitCh`: returns the segment of characters before the first
`sep` together with the list of the remaining segments. -/
def splitChAux (sep : Char) : List Char → List Char × List (List Char)
  | [] => ([], [])
  | c :: rest =>
    let r := splitChAux sep rest
    if c = sep then ([], r.1 :: r.2)
    else (c :: r.1, r.2)

/-- Go `strings.Split(s, sep)` for a one-character separator: the maximal
sep-free segments of `s`, in order (`strings.Split("", sep) = [""]`,
separators at the ends produce empty segments).  Structurally recursive so
that it evaluates inside the kernel. -/
def splitCh (sep : Char) (s : String) : List String :=
  let r := splitChAux sep s.data
  (r.1 :: r.2).map (fun l => ⟨l⟩)

/-- Go map indexing `vmsPrivateIps[vm[0]]`: the zero value `""` when the key
is absent. -/
def lookupIp (m : List (String × String)) (k : String) : String :=
  match m.find? (fun kv => kv.1 == k) with
  | some kv => kv.2
  | none => ""

/-- Go slice index `vm[0]` on a split result (the split of a string is never
empty, so this index never fails). -/
def vmAt0 : List String → String
  | [] => ""
  | a :: _ => a

/-- Go slice index `vm[1]` on a split result: `none` models the
index-out-of-range panic raised when the list has fewer than two entries. -/
def vmAt1 : List String → Option String
  | _ :: b :: _ => some b
  | _ => none

/-- The loop of `HandleLastClusterVm` (clusterize.go lines 144-151): for each
registered identifier, `vm := strings.Split(instance, ":")`; `vm[0]` keys the
private-ip map and `vm[1]` is the vm name.  `vm[1]` is an unguarded index:
when an identifier holds no ":" the Go code panics, modelled as `none`. -/
def buildNodeLists (m : List (String × String)) :
    List String → Option (List String × List String)
  | [] => some ([], [])
  | inst :: rest =>
    match vmAt1 (splitCh ':' inst) with
    | none => none
    | some name =>
      match buildNodeLists m rest with
      | none => none
      | some (ns, ips) =>
        some (name :: ns, lookupIp m (vmAt0 (splitCh ':' inst)) :: ips)

/-- Result of `HandleLastClusterVm`: the final `ClusterParams` fed to the
script generator, a wrapped error from a failed sub-step, or a panic from the
unguarded `vm[1]` index. -/
inductive HResult where
  | ok (params : ClusterParams)
  | err (msg : String)
  | panic
  deriving Repr, DecidableEq

/-- The object-store provisioning block of `HandleLastClusterVm`
(clusterize.go lines 101-128): when `SetObs` and no access key exists yet,
create the storage account (obtaining the key) and the container; in every
`SetObs` invocation assign the blob-data-contributor role; each failure is
wrapped with the sub-step name. -/
def handleObs (env : Env) (setObs : Bool) (obs : AzureObsParams) :
    Except String AzureObsParams :=
  if setObs then
    let step1 : Except String AzureObsParams :=
      if obs.AccessKey == "" then
        match env.storageAccountKey with
        | .error e => .error ("failed to create storage account: " ++ e)
        | .ok key =>
          match env.containerResult with
          | .error e => .error ("failed to create container: " ++ e)
          | .ok _ => .ok { obs with AccessKey := key }
      else .ok obs
    match step1 with
    | .error e => .error e
    | .ok obs1 =>
      match env.roleAssignment with
      | .error e =>
        .error ("failed to assign storage blob data contributor role to scale set: " ++ e)
      | .ok _ => .ok obs1
  else .ok obs

/-- `HandleLastClusterVm` (clusterize.go lines 95-173): provision object
storage if requested, resolve the cluster password and the private-ip map,
build the ordered name/ip lists from `state.Instances`, and assemble the
final `ClusterParams` for the clusterization script. -/
def HandleLastClusterVm (env : Env) (state : ClusterState)
    (p : ClusterizationParams) : HResult :=
  match handleObs env p.Cluster.SetObs p.Obs with
  | .error e => .err e
  | .ok obs =>
    match env.wekaPassword with
    | .error e => .err ("failed to get weka cluster password: " ++ e)
    | .ok pw =>
      match env.vmsPrivateIps with
      | .error e => .err ("failed to get vms private ips: " ++ e)
      | .ok m =>
        match buildNodeLists m state.instances with
        | none => .panic
        | some (names, ips) =>
          .ok { p.Cluster with
                VMNames := names
                IPs := ips
                ObsScript := GetObsScript obs
                DebugOverrideCmds := GetWekaDebugOverrideCmds
                WekaPassword := pw
                WekaUsername := "admin"
                InstallDpdk := p.InstallDpdk }

/-- The identifier `Clusterize` registers (clusterize.go lines 181-188): on
successful public-ip resolution `vmName = p.VmName ++ ":" ++ ip`; on failure
the error is only logged and the raw self-reported name is used. -/
def vmNameOf (env : Env) (p : ClusterizationParams) : String :=
  match env.publicIp with
  | .error _ => p.VmName
  | .ok ip => p.VmName ++ ":" ++ ip

/-- The progress message of clusterize.go line 219. -/
def waitMsg (instanceName : String) (cur total : Nat) : String :=
  "This (" ++ instanceName ++ ") is instance " ++ toString cur ++ "/" ++
  toString total ++ " that is ready for clusterization"

/-- `Clusterize` (clusterize.go lines 175-224).  Returns the instruction
script (`none` when the invocation panics inside `HandleLastClusterVm`)
together with the store state after the invocation. -/
def Clusterize (env : Env) (state : ClusterState) (p : ClusterizationParams) :
    Option Script × ClusterState :=
  let instanceName := vmAt0 (splitCh ':' p.VmName)
  match AddInstanceToState env.storeFailure state (vmNameOf env p) with
  | .error .shutdownRequired => (some .shutdownScript, state)
  | .error (.transient e) => (some (.errorScript e), state)
  | .ok st =>
    match env.functionAppKey with
    | .error e => (some (.errorScript e), st)
    | .ok _ =>
      if st.instances.length == p.Cluster.HostsNum then
        match HandleLastClusterVm env st p with
        | .panic => (none, st)
        | .err e => (some (.errorReportScript e), st)
        | .ok ps => (some (.clusterizeScript ps), st)
      else
        (some (.reportScript
          (waitMsg instanceName st.instances.length p.Cluster.HostsNum)), st)

/-- Outcome of the three-stage JSON decoding of the request body
(clusterize.go lines 265-284): any failed unmarshal step aborts the handler,
otherwise the decoded `RequestBody.Vm` field is available. -/
inductive ParsedBody where
  | malformed
  | ok (vm : String)
  deriving Repr, DecidableEq

/-- `Handler` (clusterize.go lines 226-335), response body plus post-state.
On a malformed body the Go handler logs and returns before writing a response
(`none`); an empty `vm` is rejected with a message without calling
`Clusterize`; otherwise the body is the rendered script of `Clusterize`
(`none` when that invocation panics). -/
def Handler (env : Env) (state : ClusterState) (p : ClusterizationParams)
    (body : ParsedBody) : Option String × ClusterState :=
  match body with
  | .malformed => (none, state)
  | .ok vm =>
    if vm == "" then (some "Cluster name wasn\x27t supplied", state)
    else
      match Clusterize env state { p with VmName := vm } with
      | (none, st) => (none, st)
      | (some script, st) => (some (render script), st)

/-- Serialized sequence of registration invocations (spec §5: appends are
serialized by the store): each call threads the store state to the next. -/
def registerSeq (env : Env) (p : ClusterizationParams) :
    List String → ClusterState → List (Option Script) × ClusterState
  | [], state => ([], state)
  | n :: rest, state =>
    let r := Clusterize env state { p with VmName := n }
    let rs := registerSeq env p rest r.2
    (r.1 :: rs.1, rs.2)

/-- Classification of an invocation's outcome.  `barrier` means the
registration closed the barrier and assembly was delegated to this caller
(the clusterization script, an assembly error report, or the assembly panic —
all three arise only inside the `len == HostsNum` branch of `Clusterize`). -/
inductive Kind where
  | wait
  | barrier
  | shutdown
  | error
  deriving Repr, DecidableEq

/-- Classify an invocation result of `Clusterize`. -/
def kindOf : Option Script → Kind
  | some (.reportScript _) => .wait
  | some (.clusterizeScript _) => .barrier
  | some (.errorReportScript _) => .barrier
  | none => .barrier
  | some .shutdownScript => .shutdown
  | some (.errorScript _) => .error

end WekaClusterize

namespace WekaClusterize

/-- The outcome kind of the registration that starts with `k` members already
registered and is the `i`-th of its serialized run (0-based), for barrier
size `N`: its append (when admitted) makes the member count `k + i + 1`. -/
def expectedKind (k N i : Nat) : Kind :=
  if k + i + 1 < N then .wait
  else if k + i + 1 = N then .barrier
  else .shutdown

end WekaClusterize

namespace WekaClusterize

/-- Every rendered instruction payload is a non-empty string. -/
theorem render_ne_empty (s : Script) : render s ≠ "" := by
  intro h
  have hl := congrArg String.length h
  cases s <;>
    simp [render, GetErrorScript, GetShutdownScript, GetScriptWithReport,
      GetErrorScriptWithReport, GetClusterizeScript, String.length_append] at hl <;>
    first
    | exact absurd hl (by decide)
    | exact absurd hl.2 (by decide)

/-- Claim C3: a registration whose identifier is not yet a member, arriving
after `len(instances)` has reached `expectedSize` (the spec-modelled store
signals the overflow via `ShutdownRequired`), receives exactly the shutdown
script (whose text is `shutdown now`) and leaves the state unchanged; by
disjointness of the `Script` constructors it is never a wait script, the
cluster-formation script, or an error-report script. -/
theorem overflow_shutdown (env : Env) (state : ClusterState)
    (p : ClusterizationParams)
    (hstore : env.storeFailure = none)
    (hnew : vmNameOf env p ∉ state.instances)
    (hfull : state.instances.length = state.expectedSize) :
    Clusterize env state p = (some .shutdownScript, state) ∧
    kindOf (Clusterize env state p).1 = .shutdown ∧
    render .shutdownScript = "\n#!/bin/bash\nshutdown now\n" := by
  have h1 : Clusterize env state p = (some .shutdownScript, state) := by
    simp [Clusterize, AddInstanceToState, hstore, hnew, hfull]
  exact ⟨h1, by rw [h1]; rfl, rfl⟩

end WekaClusterize

namespace WekaClusterize

/-- Claim C6: registration is idempotent.  For every state whose `instances`
already contain the node identifier — in particular the state returned by the
first registration of that identifier — the spec-modelled conditional append
is a no-op returning the same state, so the `instances` sequence and its
length are unchanged. -/
theorem registration_idempotent (state : ClusterState) (vm : String)
    (h : vm ∈ state.instances) :
    AddInstanceToState none state vm = .ok state := by
  simp [AddInstanceToState, h]

/-- Claim C9: a request whose `vm` field is empty is rejected immediately
with the error message of clusterize.go line 321, `Clusterize` (and with it
the state store) is never invoked, and the returned post-state equals the
pre-state. -/
theorem empty_vm_rejected (env : Env) (state : ClusterState)
    (p : ClusterizationParams) :
    Handler env state p (.ok "") = (some "Cluster name wasn\x27t supplied", state) := by
  simp [Handler]

/-- Claim C5 (amended): transient failures of the state store and of the
key-vault lookup are surfaced as an `Error` script (which exits non-zero);
the claim's further assertion that a public-address resolution failure is
also surfaced is refuted by `publicip_failure_swallowed_cex` — that failure
is only logged and registration proceeds under the unresolved name. -/
theorem transient_errors_surfaced (env : Env) (state : ClusterState)
    (p : ClusterizationParams) (e : String) :
    (env.storeFailure = some e →
      Clusterize env state p = (some (.errorScript e), state)) ∧
    (∀ st1, env.functionAppKey = .error e →
      AddInstanceToState env.storeFailure state (vmNameOf env p) = .ok st1 →
      Clusterize env state p = (some (.errorScript e), st1)) := by
  constructor
  · intro h
    simp [Clusterize, AddInstanceToState, h]
  · intro st1 hk happ
    simp [Clusterize, happ, hk]

/-- Counterexample to claim C5 as stated: a registration during which the
public-address resolution service fails (and nothing else does) returns a
wait/progress script, not an `Error` payload — the failure is swallowed. -/
theorem publicip_failure_swallowed_cex :
    kindOf (Clusterize { publicIp := .error "resolution timeout" } ⟨[], 3⟩
      { VmName := "vm000", Cluster := { HostsNum := 3 } }).1 = Kind.wait := by
  decide

/-- Counterexample to claim C2 as stated: a registration whose append
succeeds (making 1 of 3 instances) but whose function-app key lookup fails
returns an `Error` script, not the wait/progress script the claim demands
for `len < expectedSize`. -/
theorem wait_requires_keyvault_cex :
    AddInstanceToState none ⟨[], 3⟩ "vm000:10.0.0.1" =
      .ok ⟨["vm000:10.0.0.1"], 3⟩ ∧
    (1 : Nat) < 3 ∧
    kindOf (Clusterize { functionAppKey := .error "kv down" } ⟨[], 3⟩
      { VmName := "vm000", Cluster := { HostsNum := 3 } }).1 = Kind.error :=
  ⟨rfl, by decide, by decide⟩

/-- Claim C2 (amended): for every registration whose append succeeds and
whose function-app key lookup succeeds, if `len(instances) < HostsNum` the
result is the wait/progress script carrying the pair
`(len(instances), HostsNum)`; if `len(instances) = HostsNum` the result is
the cluster-formation script produced by `HandleLastClusterVm` when that
assembly path succeeds, and the error-report script when it fails. -/
theorem after_successful_append (env : Env) (state st1 : ClusterState)
    (p : ClusterizationParams) (key : String)
    (happ : AddInstanceToState env.storeFailure state (vmNameOf env p) = .ok st1)
    (hk : env.functionAppKey = .ok key) :
    (st1.instances.length < p.Cluster.HostsNum →
      Clusterize env state p = (some (.reportScript
        (waitMsg (vmAt0 (splitCh ':' p.VmName)) st1.instances.length
          p.Cluster.HostsNum)), st1)) ∧
    (st1.instances.length = p.Cluster.HostsNum →
      (∀ ps, HandleLastClusterVm env st1 p = .ok ps →
        Clusterize env state p = (some (.clusterizeScript ps), st1)) ∧
      (∀ m, HandleLastClusterVm env st1 p = .err m →
        Clusterize env state p = (some (.errorReportScript m), st1))) := by
  constructor
  · intro hlt
    have hne : (st1.instances.length == p.Cluster.HostsNum) = false := by
      simp [Nat.ne_of_lt hlt]
    simp [Clusterize, happ, hk, hne]
  · intro heq
    have hbe : (st1.instances.length == p.Cluster.HostsNum) = true := by
      simp [heq]
    constructor
    · intro ps hps
      simp [Clusterize, happ, hk, hbe, hps]
    · intro m hm
      simp [Clusterize, happ, hk, hbe, hm]

end WekaClusterize

namespace WekaClusterize

/-- An identifier with at least two split segments survives the `vm[1]`
index. -/
lemma vmAt1_exists {l : List String} (h : 2 ≤ l.length) :
    ∃ b, vmAt1 l = some b := by
  cases l with
  | nil => simp at h
  | cons a t =>
    cases t with
    | nil => simp at h
    | cons b t2 => exact ⟨b, rfl⟩

/-- When every registered identifier has at least one separator, the node
list loop succeeds and produces the two ordered lists. -/
lemma buildNodeLists_eq (m : List (String × String)) (l : List String)
    (h : ∀ inst ∈ l, 2 ≤ (splitCh ':' inst).length) :
    buildNodeLists m l = some
      (l.map (fun i => (vmAt1 (splitCh ':' i)).getD ""),
       l.map (fun i => lookupIp m (vmAt0 (splitCh ':' i)))) := by
  induction l with
  | nil => simp [buildNodeLists]
  | cons a t ih =>
    obtain ⟨b, hb⟩ := vmAt1_exists (h a (List.mem_cons_self a t))
    have ht := fun inst hi => h inst (List.mem_cons_of_mem a hi)
    simp [buildNodeLists, hb, ih ht]

/-- The node list loop dies on the first identifier with no separator. -/
lemma buildNodeLists_panic (m : List (String × String)) (l : List String)
    (inst : String) (hmem : inst ∈ l) (hlt : (splitCh ':' inst).length < 2) :
    buildNodeLists m l = none := by
  induction l with
  | nil => cases hmem
  | cons a t ih =>
    rcases List.mem_cons.mp hmem with rfl | hmem2
    · have hg : vmAt1 (splitCh ':' inst) = none := by
        rcases hl : splitCh ':' inst with _ | ⟨x, _ | ⟨y, t2⟩⟩ <;>
          simp_all [vmAt1]
        omega
      simp [buildNodeLists, hg]
    · cases hg : vmAt1 (splitCh ':' a) with
      | none => simp [buildNodeLists, hg]
      | some name => simp [buildNodeLists, hg, ih hmem2]

/-- The success case of `HandleLastClusterVm`, with the assembled
`ClusterParams` spelled out. -/
lemma handleLast_ok (env : Env) (state : ClusterState)
    (p : ClusterizationParams) (obs : AzureObsParams) (pw : String)
    (m : List (String × String))
    (hobs : handleObs env p.Cluster.SetObs p.Obs = .ok obs)
    (hpw : env.wekaPassword = .ok pw)
    (hm : env.vmsPrivateIps = .ok m)
    (hsplit : ∀ inst ∈ state.instances, 2 ≤ (splitCh ':' inst).length) :
    HandleLastClusterVm env state p = .ok
      { p.Cluster with
        VMNames := state.instances.map (fun i => (vmAt1 (splitCh ':' i)).getD "")
        IPs := state.instances.map (fun i => lookupIp m (vmAt0 (splitCh ':' i)))
        ObsScript := GetObsScript obs
        DebugOverrideCmds := GetWekaDebugOverrideCmds
        WekaPassword := pw
        WekaUsername := "admin"
        InstallDpdk := p.InstallDpdk } := by
  simp [HandleLastClusterVm, hobs, hpw, hm,
    buildNodeLists_eq m state.instances hsplit]

/-- Claim C7: when the assembly sub-steps succeed and every registered
identifier contains a separator, `HandleLastClusterVm` produces a plan whose
`VMNames` and `IPs` both have exactly as many entries as there are registered
identifiers, in registration order: the i-th name is the second segment of
the i-th identifier and the i-th address is the private-ip map's entry for
its first segment. -/
theorem assembly_plan_roundtrip (env : Env) (state : ClusterState)
    (p : ClusterizationParams) (obs : AzureObsParams) (pw : String)
    (m : List (String × String))
    (hobs : handleObs env p.Cluster.SetObs p.Obs = .ok obs)
    (hpw : env.wekaPassword = .ok pw)
    (hm : env.vmsPrivateIps = .ok m)
    (hsplit : ∀ inst ∈ state.instances, 2 ≤ (splitCh ':' inst).length) :
    ∃ ps, HandleLastClusterVm env state p = .ok ps ∧
      ps.VMNames.length = state.instances.length ∧
      ps.IPs.length = state.instances.length ∧
      ps.VMNames = state.instances.map (fun i => (vmAt1 (splitCh ':' i)).getD "") ∧
      ps.IPs = state.instances.map (fun i => lookupIp m (vmAt0 (splitCh ':' i))) :=
  ⟨_, handleLast_ok env state p obs pw m hobs hpw hm hsplit,
    by simp, by simp, rfl, rfl⟩

/-- Claim C10: `HandleLastClusterVm` is total only under the precondition
that every identifier in `state.instances` splits into at least two
segments; any member identifier with no separator makes it panic (the
unguarded `vm[1]` index).  `Clusterize` itself produces such an identifier:
when public-ip resolution fails it registers the raw self-reported name, and
the concrete run in the last conjunct then panics at the barrier, mutating
the store but returning no script. -/
theorem unguarded_split_panic (env : Env) (state : ClusterState)
    (p : ClusterizationParams) (obs : AzureObsParams) (pw : String)
    (m : List (String × String)) (inst : String)
    (hobs : handleObs env p.Cluster.SetObs p.Obs = .ok obs)
    (hpw : env.wekaPassword = .ok pw)
    (hm : env.vmsPrivateIps = .ok m) :
    ((∀ i ∈ state.instances, 2 ≤ (splitCh ':' i).length) →
      ∃ ps, HandleLastClusterVm env state p = .ok ps) ∧
    (inst ∈ state.instances → (splitCh ':' inst).length < 2 →
      HandleLastClusterVm env state p = .panic) ∧
    Clusterize { publicIp := .error "resolution timeout" } ⟨[], 1⟩
      { VmName := "vm000", Cluster := { HostsNum := 1 } } =
      (none, ⟨["vm000"], 1⟩) := by
  refine ⟨fun h => ⟨_, handleLast_ok env state p obs pw m hobs hpw hm h⟩,
    fun hmem hlt => ?_, by decide⟩
  simp [HandleLastClusterVm, hobs, hpw, hm,
    buildNodeLists_panic m state.instances inst hmem hlt]

/-- Claim C8: each failing assembly sub-step (storage-account creation,
container creation, role assignment — both on the fresh-key path, where the
key was just created, and on the pre-existing-key path — and
cluster-password resolution) aborts `HandleLastClusterVm` with an error
naming that sub-step, and at the `Clusterize` level the last node then
receives the error-report script — by constructor disjointness never a
(partial) cluster-formation script. -/
theorem assembly_substep_failure (env : Env) (state st1 : ClusterState)
    (p : ClusterizationParams) (e k : String) (obs : AzureObsParams) :
    (p.Cluster.SetObs = true → p.Obs.AccessKey = "" →
      env.storageAccountKey = .error e →
      HandleLastClusterVm env state p =
        .err ("failed to create storage account: " ++ e)) ∧
    (p.Cluster.SetObs = true → p.Obs.AccessKey = "" →
      env.storageAccountKey = .ok k → env.containerResult = .error e →
      HandleLastClusterVm env state p =
        .err ("failed to create container: " ++ e)) ∧
    (p.Cluster.SetObs = true → p.Obs.AccessKey = "" →
      env.storageAccountKey = .ok k → env.containerResult = .ok () →
      env.roleAssignment = .error e →
      HandleLastClusterVm env state p =
        .err ("failed to assign storage blob data contributor role to scale set: " ++ e)) ∧
    (p.Cluster.SetObs = true → p.Obs.AccessKey ≠ "" →
      env.roleAssignment = .error e →
      HandleLastClusterVm env state p =
        .err ("failed to assign storage blob data contributor role to scale set: " ++ e)) ∧
    (handleObs env p.Cluster.SetObs p.Obs = .ok obs →
      env.wekaPassword = .error e →
      HandleLastClusterVm env state p =
        .err ("failed to get weka cluster password: " ++ e)) ∧
    (∀ msg, AddInstanceToState env.storeFailure state (vmNameOf env p) = .ok st1 →
      env.functionAppKey = .ok k →
      st1.instances.length = p.Cluster.HostsNum →
      HandleLastClusterVm env st1 p = .err msg →
      Clusterize env state p = (some (.errorReportScript msg), st1)) := by
  refine ⟨?_, ?_, ?_, ?_, ?_, ?_⟩
  · intro hso hak hsa
    simp [HandleLastClusterVm, handleObs, hso, hak, hsa]
  · intro hso hak hsa hc
    simp [HandleLastClusterVm, handleObs, hso, hak, hsa, hc]
  · intro hso hak hsa hc hr
    simp [HandleLastClusterVm, handleObs, hso, hak, hsa, hc, hr]
  · intro hso hak hr
    simp [HandleLastClusterVm, handleObs, hso, hak, hr]
  · intro hobs hpw
    simp [HandleLastClusterVm, hobs, hpw]
  · intro msg happ hk hlen hH
    have hbe : (st1.instances.length == p.Cluster.HostsNum) = true := by
      simp [hlen]
    simp [Clusterize, happ, hk, hbe, hH]

/-- Counterexample to claim C4 as stated: on a malformed request body the
handler returns before writing any response, so this failure path yields a
response with no instruction payload at all. -/
theorem handler_malformed_no_payload_cex :
    Handler {} ⟨[], 3⟩ {} .malformed = (none, ⟨[], 3⟩) := by
  decide

/-- Claim C4 (amended): every request whose body parses receives a
well-formed, non-empty instruction payload — the missing-identifier message
when `vm` is empty, and otherwise the rendered script of `Clusterize`
(covering store errors, key-vault errors, overflow shutdown and assembly
errors) whenever that invocation completes with a script.  Malformed bodies
(see the counterexample) and the C10 panic are the only paths with no
payload. -/
theorem handler_payload_after_parse (env : Env) (state : ClusterState)
    (p : ClusterizationParams) (vm : String) (s : Script)
    (hs : vm ≠ "" → (Clusterize env state { p with VmName := vm }).1 = some s) :
    ∃ body, (Handler env state p (.ok vm)).1 = some body ∧ body ≠ "" := by
  by_cases hvm : vm = ""
  · subst hvm
    exact ⟨"Cluster name wasn\x27t supplied", by simp [Handler], by decide⟩
  · have h1 := hs hvm
    cases hC : Clusterize env state { p with VmName := vm } with
    | mk o st2 =>
      rw [hC] at h1
      simp at h1
      subst h1
      refine ⟨render s, ?_, render_ne_empty s⟩
      simp [Handler, hvm, hC]

end WekaClusterize

namespace WekaClusterize

lemma expectedKind_succ (k N i : Nat) :
    expectedKind k N (i + 1) = expectedKind (k + 1) N i := by
  unfold expectedKind
  have h : k + (i + 1) + 1 = k + 1 + i + 1 := by omega
  rw [h]

lemma expectedKind_of_full (k N i : Nat) (h : N ≤ k) :
    expectedKind k N i = .shutdown := by
  unfold expectedKind
  rw [if_neg (by omega), if_neg (by omega)]

lemma map_expectedKind_full (k N L : Nat) (h : N ≤ k) :
    (List.range L).map (expectedKind k N) = List.replicate L Kind.shutdown := by
  rw [List.eq_replicate_iff]
  refine ⟨by simp, fun b hb => ?_⟩
  obtain ⟨i, _, rfl⟩ := List.mem_map.mp hb
  exact expectedKind_of_full k N i h

/-- One registration of a fresh identifier: either the barrier is already
full and the caller is told to shut down, or the identifier is appended and
the outcome kind is determined by the new member count. -/
lemma clusterize_step_fresh (env : Env) (st : ClusterState)
    (p : ClusterizationParams) (ip key : String)
    (hip : env.publicIp = .ok ip) (hsf : env.storeFailure = none)
    (hk : env.functionAppKey = .ok key)
    (hfresh : (p.VmName ++ ":" ++ ip) ∉ st.instances)
    (hexp : st.expectedSize = p.Cluster.HostsNum) :
    (p.Cluster.HostsNum ≤ st.instances.length →
      Clusterize env st p = (some .shutdownScript, st)) ∧
    (st.instances.length < p.Cluster.HostsNum →
      (Clusterize env st p).2 =
        ⟨st.instances ++ [p.VmName ++ ":" ++ ip], st.expectedSize⟩ ∧
      kindOf (Clusterize env st p).1 =
        expectedKind st.instances.length p.Cluster.HostsNum 0) := by
  have hv : vmNameOf env p = p.VmName ++ ":" ++ ip := by
    simp [vmNameOf, hip]
  constructor
  · intro hge
    have hfull : st.expectedSize ≤ st.instances.length := by omega
    simp [Clusterize, AddInstanceToState, hsf, hv, hfresh, hfull]
  · intro hlt
    have hroom : ¬ st.expectedSize ≤ st.instances.length := by omega
    have happ : AddInstanceToState env.storeFailure st (vmNameOf env p) =
        .ok ⟨st.instances ++ [p.VmName ++ ":" ++ ip], st.expectedSize⟩ := by
      simp [AddInstanceToState, hsf, hv, hfresh, hroom]
    by_cases hN : st.instances.length + 1 = p.Cluster.HostsNum
    · have hbe : ((st.instances ++ [p.VmName ++ ":" ++ ip]).length ==
          p.Cluster.HostsNum) = true := by
        simp [hN]
      have hek : expectedKind st.instances.length p.Cluster.HostsNum 0 =
          .barrier := by
        unfold expectedKind
        rw [if_neg (by omega), if_pos (by omega)]
      rw [hek]
      cases hH : HandleLastClusterVm env
          ⟨st.instances ++ [p.VmName ++ ":" ++ ip], st.expectedSize⟩ p with
      | ok ps => simp [Clusterize, happ, hk, hbe, hH, kindOf, hN]
      | err m => simp [Clusterize, happ, hk, hbe, hH, kindOf, hN]
      | panic => simp [Clusterize, happ, hk, hbe, hH, kindOf, hN]
    · have hbe : ((st.instances ++ [p.VmName ++ ":" ++ ip]).length ==
          p.Cluster.HostsNum) = false := by
        simp
        omega
      have hek : expectedKind st.instances.length p.Cluster.HostsNum 0 =
          .wait := by
        unfold expectedKind
        rw [if_pos (by omega)]
      rw [hek]
      simp [Clusterize, happ, hk, hbe, kindOf, hN]

end WekaClusterize

namespace WekaClusterize

/-- Kinds of a serialized run of fresh registrations: starting from `k`
registered members, the `i`-th call's outcome kind is `expectedKind k N i`. -/
lemma registerSeq_kinds (env : Env) (p0 : ClusterizationParams)
    (ip key : String)
    (hip : env.publicIp = .ok ip) (hsf : env.storeFailure = none)
    (hk : env.functionAppKey = .ok key) :
    ∀ (names : List String) (st : ClusterState),
      st.expectedSize = p0.Cluster.HostsNum →
      st.instances.length ≤ p0.Cluster.HostsNum →
      (∀ n ∈ names, (n ++ ":" ++ ip) ∉ st.instances) →
      ((names.map (fun n => n ++ ":" ++ ip)).Nodup) →
      ((registerSeq env p0 names st).1.map kindOf) =
        (List.range names.length).map
          (expectedKind st.instances.length p0.Cluster.HostsNum) := by
  intro names
  induction names with
  | nil => intro st _ _ _ _; simp [registerSeq]
  | cons n rest ih =>
    intro st hexp hle hfresh hnodup
    have hstep := clusterize_step_fresh env st { p0 with VmName := n } ip key
      hip hsf hk (hfresh n (List.mem_cons_self n rest)) hexp
    rw [List.length_cons, List.range_succ_eq_map, List.map_cons,
      List.map_map]
    have hcomp : (expectedKind st.instances.length p0.Cluster.HostsNum ∘
        Nat.succ) = expectedKind (st.instances.length + 1)
          p0.Cluster.HostsNum := by
      funext i
      exact expectedKind_succ st.instances.length p0.Cluster.HostsNum i
    rw [hcomp]
    by_cases hcase : st.instances.length < p0.Cluster.HostsNum
    · obtain ⟨hst2, hkind⟩ := hstep.2 hcase
      rw [registerSeq, List.map_cons, hkind, hst2]
      have htail := ih ⟨st.instances ++ [n ++ ":" ++ ip], st.expectedSize⟩
        hexp (by simp; omega)
        (fun n2 hn2 => by
          simp only [List.mem_append, List.mem_singleton]
          rintro (h1 | h2)
          · exact hfresh n2 (List.mem_cons_of_mem n hn2) h1
          · rw [List.map_cons, List.nodup_cons] at hnodup
            exact hnodup.1 (h2 ▸ List.mem_map_of_mem _ hn2))
        (by rw [List.map_cons, List.nodup_cons] at hnodup; exact hnodup.2)
      rw [htail]
      simp
    · have hge : p0.Cluster.HostsNum ≤ st.instances.length := by omega
      have hshut := hstep.1 hge
      rw [registerSeq, List.map_cons, hshut]
      have htail := ih st hexp hle
        (fun n2 hn2 => hfresh n2 (List.mem_cons_of_mem n hn2))
        (by rw [List.map_cons, List.nodup_cons] at hnodup; exact hnodup.2)
      simp only [hshut]
      rw [htail]
      rw [map_expectedKind_full _ _ _ hge,
        map_expectedKind_full _ _ _ (by omega)]
      have h0 : expectedKind st.instances.length p0.Cluster.HostsNum 0 =
          .shutdown := expectedKind_of_full _ _ _ hge
      simp [kindOf, h0]

end WekaClusterize

namespace WekaClusterize

lemma countP_beq_range (L a : Nat) (h : a < L) :
    List.countP (fun i => i == a) (List.range L) = 1 := by
  induction L with
  | zero => omega
  | succ L ih =>
    rw [List.range_succ, List.countP_append]
    by_cases ha : a < L
    · have hne : ((L == a) : Bool) = false := by
        simp
        omega
      simp [List.countP_cons, hne, ih ha]
    · have ha2 : a = L := by omega
      subst ha2
      have h0 : List.countP (fun i => i == a) (List.range a) = 0 := by
        rw [List.countP_eq_zero]
        intro x hx
        rw [List.mem_range] at hx
        simp
        omega
      simp [h0, List.countP_cons]

lemma expectedKind_zero_barrier_iff (N i : Nat) :
    expectedKind 0 N i = Kind.barrier ↔ i + 1 = N := by
  unfold expectedKind
  split_ifs with h1 h2 <;> simp <;> omega

/-- Claim C1: in a serialized run of registrations with unique identifiers
against a fresh barrier of size `HostsNum = N > 0`, with a healthy store and
key vault and at least `N` calls: exactly one invocation receives the
last/assemble outcome (`Kind.barrier`: the branch that delegates to
`HandleLastClusterVm`), it is exactly the `N`-th call — the one whose
successful append makes `len(instances) = N` — and every other admitted
invocation (`i + 1 < N`) receives the wait outcome. -/
theorem barrier_exactly_once (env : Env) (p : ClusterizationParams)
    (ip key : String) (names : List String)
    (hip : env.publicIp = .ok ip) (hsf : env.storeFailure = none)
    (hk : env.functionAppKey = .ok key)
    (hpos : 0 < p.Cluster.HostsNum)
    (hlen : p.Cluster.HostsNum ≤ names.length)
    (hnodup : (names.map (fun n => n ++ ":" ++ ip)).Nodup) :
    ((registerSeq env p names ⟨[], p.Cluster.HostsNum⟩).1.map kindOf).count
        Kind.barrier = 1 ∧
    (∀ i, ∀ hi : i < (registerSeq env p names ⟨[], p.Cluster.HostsNum⟩).1.length,
      (kindOf ((registerSeq env p names ⟨[], p.Cluster.HostsNum⟩).1.get ⟨i, hi⟩) =
          Kind.barrier ↔ i + 1 = p.Cluster.HostsNum)) ∧
    (∀ i, ∀ hi : i < (registerSeq env p names ⟨[], p.Cluster.HostsNum⟩).1.length,
      (kindOf ((registerSeq env p names ⟨[], p.Cluster.HostsNum⟩).1.get ⟨i, hi⟩) =
          Kind.wait ↔ i + 1 < p.Cluster.HostsNum)) := by
  have hkinds0 := registerSeq_kinds env p ip key hip hsf hk names
    ⟨[], p.Cluster.HostsNum⟩ rfl (by simp) (by simp) hnodup
  have hkinds : List.map kindOf
      (registerSeq env p names ⟨[], p.Cluster.HostsNum⟩).1 =
      List.map (expectedKind 0 p.Cluster.HostsNum) (List.range names.length) := by
    simpa using hkinds0
  have hL : (registerSeq env p names ⟨[], p.Cluster.HostsNum⟩).1.length =
      names.length := by
    have hlen2 := congrArg List.length hkinds
    simpa using hlen2
  have hval : ∀ i, ∀ hi : i <
      (registerSeq env p names ⟨[], p.Cluster.HostsNum⟩).1.length,
      kindOf ((registerSeq env p names ⟨[], p.Cluster.HostsNum⟩).1.get ⟨i, hi⟩) =
        expectedKind 0 p.Cluster.HostsNum i := by
    intro i hi
    have hiL : i < names.length := hL ▸ hi
    have h2 : (List.map kindOf
        (registerSeq env p names ⟨[], p.Cluster.HostsNum⟩).1)[i]? =
        ((List.range names.length).map
          (expectedKind 0 p.Cluster.HostsNum))[i]? := by
      rw [hkinds]
    rw [List.get_eq_getElem]
    rw [List.getElem?_map, List.getElem?_map, List.getElem?_range hiL,
      List.getElem?_eq_getElem hi] at h2
    simpa using h2
  refine ⟨?_, fun i hi => ?_, fun i hi => ?_⟩
  · rw [List.count_eq_countP, hkinds, List.countP_map]
    have hcg : List.countP
        ((fun x => x == Kind.barrier) ∘ expectedKind 0 p.Cluster.HostsNum)
        (List.range names.length) =
        List.countP (fun i => i == p.Cluster.HostsNum - 1)
          (List.range names.length) := by
      apply List.countP_congr
      intro i _
      simp only [Function.comp, beq_iff_eq]
      rw [expectedKind_zero_barrier_iff]
      omega
    rw [hcg]
    exact countP_beq_range names.length (p.Cluster.HostsNum - 1) (by omega)
  · rw [hval i hi]
    exact expectedKind_zero_barrier_iff p.Cluster.HostsNum i
  · rw [hval i hi]
    unfold expectedKind
    split_ifs with h1 h2 <;> simp <;> omega

end WekaClusterize

namespace WekaClusterize

/-- Witness for C3 at a concrete overflow. -/
theorem overflow_shutdown_witness :
    Clusterize {} ⟨["a:1"], 1⟩ { VmName := "b", Cluster := { HostsNum := 1 } } =
      (some .shutdownScript, ⟨["a:1"], 1⟩) :=
  (overflow_shutdown {} ⟨["a:1"], 1⟩
    { VmName := "b", Cluster := { HostsNum := 1 } } rfl (by decide) rfl).1

/-- Witness for C6 at a concrete duplicate registration. -/
theorem registration_idempotent_witness :
    AddInstanceToState none ⟨["n1:10.0.0.1"], 3⟩ "n1:10.0.0.1" =
      .ok ⟨["n1:10.0.0.1"], 3⟩ :=
  registration_idempotent ⟨["n1:10.0.0.1"], 3⟩ "n1:10.0.0.1" (by decide)

/-- Witness for C5 (amended) at a concrete store outage. -/
theorem transient_errors_surfaced_witness :
    Clusterize { storeFailure := some "store unreachable" } ⟨[], 3⟩
      { VmName := "vm000", Cluster := { HostsNum := 3 } } =
      (some (.errorScript "store unreachable"), ⟨[], 3⟩) :=
  (transient_errors_surfaced { storeFailure := some "store unreachable" }
    ⟨[], 3⟩ { VmName := "vm000", Cluster := { HostsNum := 3 } }
    "store unreachable").1 rfl

/-- Witness for C2 (amended) at a concrete first-of-three registration. -/
theorem after_successful_append_witness :
    Clusterize {} ⟨[], 3⟩ { VmName := "vm000", Cluster := { HostsNum := 3 } } =
      (some (.reportScript (waitMsg "vm000" 1 3)), ⟨["vm000:10.0.0.1"], 3⟩) :=
  (after_successful_append {} ⟨[], 3⟩ ⟨["vm000:10.0.0.1"], 3⟩
    { VmName := "vm000", Cluster := { HostsNum := 3 } }
    "fk" rfl rfl).1 (by decide)

/-- Witness for C7 at a concrete two-node state. -/
theorem assembly_plan_roundtrip_witness :
    ∃ ps, HandleLastClusterVm { vmsPrivateIps := .ok [("i0", "10.0.0.5")] }
        ⟨["i0:node0", "i1:node1"], 2⟩ {} = .ok ps ∧
      ps.VMNames.length = 2 ∧
      ps.IPs.length = 2 ∧
      ps.VMNames = ["node0", "node1"] ∧
      ps.IPs = ["10.0.0.5", ""] :=
  assembly_plan_roundtrip { vmsPrivateIps := .ok [("i0", "10.0.0.5")] }
    ⟨["i0:node0", "i1:node1"], 2⟩ {} {} "pw" [("i0", "10.0.0.5")]
    rfl rfl rfl (by decide)

/-- Witness for C10: a member identifier with no separator panics. -/
theorem unguarded_split_panic_witness :
    HandleLastClusterVm {} ⟨["vm000"], 1⟩ {} = .panic :=
  ((unguarded_split_panic {} ⟨["vm000"], 1⟩ {} {} "pw" [] "vm000"
    rfl rfl rfl).2.1 (by decide) (by decide))

/-- Witness for C8 at a concrete storage-account failure and at a concrete
fresh-key invocation (empty access key, both creations succeed) where role
assignment fails. -/
theorem assembly_substep_failure_witness :
    (HandleLastClusterVm { storageAccountKey := .error "quota exceeded" }
      ⟨[], 1⟩ { Cluster := { SetObs := true } } =
      .err "failed to create storage account: quota exceeded") ∧
    (HandleLastClusterVm { roleAssignment := .error "forbidden" }
      ⟨[], 1⟩ { Cluster := { SetObs := true } } =
      .err "failed to assign storage blob data contributor role to scale set: forbidden") :=
  ⟨(assembly_substep_failure { storageAccountKey := .error "quota exceeded" }
      ⟨[], 1⟩ ⟨[], 1⟩ { Cluster := { SetObs := true } } "quota exceeded" "k"
      {}).1 rfl rfl rfl,
   (assembly_substep_failure { roleAssignment := .error "forbidden" }
      ⟨[], 1⟩ ⟨[], 1⟩ { Cluster := { SetObs := true } } "forbidden" "sak"
      {}).2.2.1 rfl rfl rfl rfl rfl⟩

/-- Witness for C4 (amended) at a concrete parsed request. -/
theorem handler_payload_after_parse_witness :
    ∃ body, (Handler {} ⟨[], 3⟩ {} (.ok "vm000")).1 = some body ∧ body ≠ "" :=
  handler_payload_after_parse {} ⟨[], 3⟩ {} "vm000"
    (.reportScript (waitMsg "vm000" 1 0)) (fun _ => rfl)

/-- Witness for C1: a serialized two-node run has exactly one barrier outcome. -/
theorem barrier_exactly_once_witness :
    ((registerSeq {} { Cluster := { HostsNum := 2 } } ["a", "b"]
        ⟨[], 2⟩).1.map kindOf).count Kind.barrier = 1 :=
  (barrier_exactly_once {} { Cluster := { HostsNum := 2 } } "10.0.0.1" "fk"
    ["a", "b"] rfl rfl rfl (by decide) (by decide) (by decide)).1

end WekaClusterize
